import Mathlib

/-!
Shallow embedding of `prompt_toolkit/filters/cli.py`: boolean predicates
("filters") over a read-only snapshot of the command-line-interface state,
together with the filter combinators described by the specification.

The concrete predicates (`InViMode`, `CanInsert`, `IsDone`, ...) are
translated directly from `src/prompt_toolkit/filters/cli.py`. The enums,
the `CLIFilter` base class with its AND/OR/NOT combinators, and the
`is_done` attribute of the CLI object live in modules that are not part
of this repository slice; those are modelled from the specification and
carry a doc comment saying so.
-/

/-- Modelled from the spec: the Vi input-mode enum (`InputMode` in
`prompt_toolkit/key_binding/vi_state.py`, not under src/). The spec
lists `vi_input_mode: enum{insert, navigation, replace, ...}`. -/
inductive InputMode where
  | insert
  | navigation
  | replace
  deriving DecidableEq

/-- Modelled from the spec: the editing-mode enum (`EditingMode` in
`prompt_toolkit/enums.py`, not under src/). The spec lists
`editing_mode: enum{emacs, vi}`. -/
inductive EditingMode where
  | vi
  | emacs
  deriving DecidableEq

/-- The slice of the current buffer that the filters in `cli.py` read:
only `read_only()` is consulted by the claims' predicates. -/
structure Buffer where
  read_only : Bool
  deriving DecidableEq

/-- The slice of `cli.vi_state` read by `cli.py`. In Python
`operator_func` is a function-or-None; only its truthiness is read, so
it is embedded as the boolean "an operator function is set". -/
structure ViState where
  input_mode : InputMode
  operator_func : Bool
  waiting_for_digraph : Bool
  deriving DecidableEq

/-- The read-only CLI snapshot, holding exactly the fields the
predicates under verification read. -/
structure CLI where
  editing_mode : EditingMode
  vi_state : ViState
  current_buffer : Buffer
  is_returning : Bool
  is_aborting : Bool
  is_exiting : Bool
  deriving DecidableEq

/-- Modelled from the spec: `CommandLineInterface.is_done` is read by
the `IsDone` filter but is defined outside src/; the spec says `IsDone`
is "true iff any of Returning, Aborting, Exiting is true". -/
def CLI.is_done (cli : CLI) : Bool :=
  cli.is_returning || cli.is_aborting || cli.is_exiting

/-- `IsReturning.__call__`: returns `cli.is_returning`. -/
def IsReturning.eval (cli : CLI) : Bool :=
  cli.is_returning

/-- `IsAborting.__call__`: returns `cli.is_aborting`. -/
def IsAborting.eval (cli : CLI) : Bool :=
  cli.is_aborting

/-- `IsExiting.__call__`: returns `cli.is_exiting`. -/
def IsExiting.eval (cli : CLI) : Bool :=
  cli.is_exiting

/-- `IsDone.__call__`: returns `cli.is_done`. -/
def IsDone.eval (cli : CLI) : Bool :=
  cli.is_done

/-- The local variable `input_mode` computed in `InViMode.__call__`:
when the current buffer is read-only, always report NAVIGATION mode,
otherwise the raw `vi_state.input_mode`. -/
def InViMode.effectiveInputMode (cli : CLI) : InputMode :=
  if cli.current_buffer.read_only then InputMode.navigation
  else cli.vi_state.input_mode

/-- `InViMode.__call__` for a filter constructed with `mode`: report
False while waiting for a text object or digraph, otherwise compare the
effective input mode with the constructor argument. -/
def InViMode.eval (mode : InputMode) (cli : CLI) : Bool :=
  if cli.vi_state.operator_func || cli.vi_state.waiting_for_digraph then
    false
  else
    decide (InViMode.effectiveInputMode cli = mode)

/-- `CanInsert.__call__`: `cli.editing_mode != EditingMode.VI or
(not cli.vi_state.operator_func and
cli.vi_state.input_mode == ViInputMode.INSERT)`. -/
def CanInsert.eval (cli : CLI) : Bool :=
  decide (cli.editing_mode ≠ EditingMode.vi) ||
    (!cli.vi_state.operator_func &&
      decide (cli.vi_state.input_mode = InputMode.insert))

/-- Modelled from the spec: the `CLIFilter` base class lives in
`prompt_toolkit/filters/base.py`, which is not under src/. A filter is
evaluated against a CLI snapshot and either yields a boolean or raises;
raising is represented by `Except.error`. -/
abbrev CLIFilter : Type := CLI → Except String Bool

/-- Modelled from the spec: `AND(other)` evaluates `self` first; if
false, returns false without evaluating `other` (short-circuit). -/
def CLIFilter.AND (f g : CLIFilter) : CLIFilter := fun cli =>
  match f cli with
  | Except.ok false => Except.ok false
  | Except.ok true => g cli
  | Except.error e => Except.error e

/-- Modelled from the spec: `OR(other)` evaluates `self` first; if true,
returns true without evaluating `other`. -/
def CLIFilter.OR (f g : CLIFilter) : CLIFilter := fun cli =>
  match f cli with
  | Except.ok true => Except.ok true
  | Except.ok false => g cli
  | Except.error e => Except.error e

/-- Modelled from the spec: `NOT()` returns the logical negation. -/
def CLIFilter.NOT (f : CLIFilter) : CLIFilter := fun cli =>
  match f cli with
  | Except.ok b => Except.ok (!b)
  | Except.error e => Except.error e

/-- A concrete leaf predicate lifted to a (never-raising) filter. -/
def CLIFilter.ofPred (p : CLI → Bool) : CLIFilter := fun cli =>
  Except.ok (p cli)

/-- A filter that always evaluates to false without raising. -/
def fFalse : CLIFilter := fun _ => Except.ok false

/-- A filter that always evaluates to true without raising. -/
def fTrue : CLIFilter := fun _ => Except.ok true

/-- A filter whose evaluation raises. -/
def gRaise : CLIFilter := fun _ => Except.error "evaluated"

/-- A baseline snapshot: Vi editing mode, navigation input mode, no
pending operator or digraph, writable buffer, not terminating. -/
def cliBase : CLI :=
  { editing_mode := EditingMode.vi,
    vi_state :=
      { input_mode := InputMode.navigation,
        operator_func := false,
        waiting_for_digraph := false },
    current_buffer := { read_only := false },
    is_returning := false,
    is_aborting := false,
    is_exiting := false }

/-- Snapshot with a pending operator. -/
def cliOpPending : CLI :=
  { cliBase with
    vi_state :=
      { input_mode := InputMode.insert,
        operator_func := true,
        waiting_for_digraph := false } }

/-- Snapshot with a read-only buffer, raw insert input mode, Vi editing
mode, and no pending operator or digraph. -/
def cliReadOnlyIns : CLI :=
  { cliBase with
    vi_state :=
      { input_mode := InputMode.insert,
        operator_func := false,
        waiting_for_digraph := false },
    current_buffer := { read_only := true } }

/-- Snapshot in Emacs editing mode, otherwise like the baseline. -/
def cliEmacs : CLI :=
  { cliBase with editing_mode := EditingMode.emacs }

/-- Snapshot in Vi editing mode with raw insert input mode, writable
buffer, and no pending operator or digraph. -/
def cliViIns : CLI :=
  { cliBase with
    vi_state :=
      { input_mode := InputMode.insert,
        operator_func := false,
        waiting_for_digraph := false } }

/-- Snapshot in Vi editing mode, awaiting a digraph, no pending
operator, raw insert input mode, writable buffer. -/
def cliDigraph : CLI :=
  { cliBase with
    vi_state :=
      { input_mode := InputMode.insert,
        operator_func := false,
        waiting_for_digraph := true } }

/-- C1: whenever a Vi operator is pending (`operator_func` set) or a
digraph is being composed (`waiting_for_digraph`), `InViMode(m)`
evaluates to false for every mode argument `m`. -/
theorem inViMode_false_when_pending (m : InputMode) (cli : CLI)
    (h : cli.vi_state.operator_func = true ∨
      cli.vi_state.waiting_for_digraph = true) :
    InViMode.eval m cli = false := by
  unfold InViMode.eval
  rcases h with h | h <;> simp [h]

/-- Witness for C1: on the concrete snapshot with a pending operator,
`InViMode(insert)` evaluates to false. -/
theorem inViMode_false_when_pending_witness :
    InViMode.eval InputMode.insert cliOpPending = false :=
  inViMode_false_when_pending InputMode.insert cliOpPending (Or.inl rfl)

/-- C2: when the current buffer is read-only and no operator or digraph
is pending, `InViMode(navigation)` evaluates to true regardless of the
raw recorded input mode, and `InViMode(m)` evaluates to false for every
`m` other than navigation. -/
theorem inViMode_readOnly_forces_navigation (m : InputMode) (cli : CLI)
    (hro : cli.current_buffer.read_only = true)
    (hop : cli.vi_state.operator_func = false)
    (hdg : cli.vi_state.waiting_for_digraph = false) :
    InViMode.eval InputMode.navigation cli = true ∧
    (m ≠ InputMode.navigation → InViMode.eval m cli = false) := by
  unfold InViMode.eval InViMode.effectiveInputMode
  simp [hro, hop, hdg]
  intro hm
  exact fun h => hm h.symm

/-- Witness for C2: on the concrete read-only snapshot whose raw input
mode is insert, `InViMode(navigation)` is true and `InViMode(insert)`
is false. -/
theorem inViMode_readOnly_forces_navigation_witness :
    InViMode.eval InputMode.navigation cliReadOnlyIns = true ∧
    (InputMode.insert ≠ InputMode.navigation →
      InViMode.eval InputMode.insert cliReadOnlyIns = false) :=
  inViMode_readOnly_forces_navigation InputMode.insert cliReadOnlyIns
    rfl rfl rfl

/-- C3 (counterexample): a snapshot whose editing mode is Emacs on which
`InViMode(navigation)` nevertheless evaluates to true — the code never
consults `cli.editing_mode`, so the claim as stated is false. -/
theorem inViMode_true_in_emacs :
    cliEmacs.editing_mode = EditingMode.emacs ∧
    InViMode.eval InputMode.navigation cliEmacs = true := by
  exact ⟨rfl, rfl⟩

/-- C3 (amended): `InViMode(m)` does not consult the overall editing
mode — its value is determined by `vi_state` and the current buffer
alone, so two snapshots agreeing on those fields (in particular two
snapshots differing only in `editing_mode`) get the same answer. -/
theorem inViMode_independent_of_editing_mode (m : InputMode) (c1 c2 : CLI)
    (hvs : c1.vi_state = c2.vi_state)
    (hbuf : c1.current_buffer = c2.current_buffer) :
    InViMode.eval m c1 = InViMode.eval m c2 := by
  unfold InViMode.eval InViMode.effectiveInputMode
  rw [hvs, hbuf]

/-- Witness for the amended C3: the Emacs snapshot and the Vi baseline
snapshot differ only in editing mode, and `InViMode(navigation)` gives
the same answer on both. -/
theorem inViMode_independent_of_editing_mode_witness :
    InViMode.eval InputMode.navigation cliEmacs =
      InViMode.eval InputMode.navigation cliBase :=
  inViMode_independent_of_editing_mode InputMode.navigation
    cliEmacs cliBase rfl rfl

/-- C4: `CanInsert` evaluates to true whenever the editing mode is not
Vi; and in Vi editing mode it evaluates to true exactly when no operator
is pending and the raw input mode is insert. -/
theorem canInsert_spec (cli : CLI) :
    (cli.editing_mode ≠ EditingMode.vi → CanInsert.eval cli = true) ∧
    (cli.editing_mode = EditingMode.vi →
      (CanInsert.eval cli = true ↔
        cli.vi_state.operator_func = false ∧
        cli.vi_state.input_mode = InputMode.insert)) := by
  unfold CanInsert.eval
  constructor
  · intro h
    simp [h]
  · intro h
    simp [h]

/-- Witness for C4: on the Emacs snapshot `CanInsert` is true, and on
the Vi snapshot in raw insert mode with no pending operator `CanInsert`
is true. -/
theorem canInsert_spec_witness :
    CanInsert.eval cliEmacs = true ∧ CanInsert.eval cliViIns = true :=
  ⟨(canInsert_spec cliEmacs).1 (by decide),
   ((canInsert_spec cliViIns).2 rfl).2 ⟨rfl, rfl⟩⟩

/-- C5 (counterexample): on the snapshot with a read-only buffer, raw
insert input mode, Vi editing mode and no pending operator or digraph,
`CanInsert` evaluates to true — not false as the claim states, because
`CanInsert.__call__` never consults `read_only()`. -/
theorem c5_canInsert_counterexample :
    cliReadOnlyIns.current_buffer.read_only = true ∧
    cliReadOnlyIns.vi_state.input_mode = InputMode.insert ∧
    cliReadOnlyIns.editing_mode = EditingMode.vi ∧
    cliReadOnlyIns.vi_state.operator_func = false ∧
    cliReadOnlyIns.vi_state.waiting_for_digraph = false ∧
    CanInsert.eval cliReadOnlyIns = true := by
  refine ⟨rfl, rfl, rfl, rfl, rfl, rfl⟩

/-- C5 (amended): on every snapshot with a read-only buffer, raw insert
input mode, Vi editing mode, and no pending operator or digraph,
`InViMode(navigation)` is true, `InViMode(insert)` is false, and
`CanInsert` is true (it reads only the editing mode, the operator flag
and the raw input mode, not the read-only flag). -/
theorem c5_amended_scenario (cli : CLI)
    (hro : cli.current_buffer.read_only = true)
    (hins : cli.vi_state.input_mode = InputMode.insert)
    (hvi : cli.editing_mode = EditingMode.vi)
    (hop : cli.vi_state.operator_func = false)
    (hdg : cli.vi_state.waiting_for_digraph = false) :
    InViMode.eval InputMode.navigation cli = true ∧
    InViMode.eval InputMode.insert cli = false ∧
    CanInsert.eval cli = true := by
  unfold InViMode.eval InViMode.effectiveInputMode CanInsert.eval
  simp [hro, hins, hvi, hop, hdg]

/-- Witness for the amended C5, at the concrete read-only raw-insert
snapshot. -/
theorem c5_amended_scenario_witness :
    InViMode.eval InputMode.navigation cliReadOnlyIns = true ∧
    InViMode.eval InputMode.insert cliReadOnlyIns = false ∧
    CanInsert.eval cliReadOnlyIns = true :=
  c5_amended_scenario cliReadOnlyIns rfl rfl rfl rfl rfl

/-- C6: `IsDone` evaluates to true exactly when at least one of
`IsReturning`, `IsAborting`, `IsExiting` evaluates to true. -/
theorem isDone_iff_terminal (cli : CLI) :
    IsDone.eval cli = true ↔
      (IsReturning.eval cli = true ∨ IsAborting.eval cli = true ∨
        IsExiting.eval cli = true) := by
  unfold IsDone.eval CLI.is_done IsReturning.eval IsAborting.eval IsExiting.eval
  simp [Bool.or_eq_true, or_assoc]

/-- C7: for filters whose evaluation yields booleans `a` and `b` on a
snapshot, AND evaluates to their conjunction, OR to their disjunction,
and NOT to the negation of `a`. -/
theorem filter_algebra (f g : CLIFilter) (s : CLI) (a b : Bool)
    (hf : f s = Except.ok a) (hg : g s = Except.ok b) :
    CLIFilter.AND f g s = Except.ok (a && b) ∧
    CLIFilter.OR f g s = Except.ok (a || b) ∧
    CLIFilter.NOT f s = Except.ok (!a) := by
  unfold CLIFilter.AND CLIFilter.OR CLIFilter.NOT
  cases a <;> cases b <;> simp [hf, hg]

/-- Witness for C7: the always-true and always-false filters on the
baseline snapshot satisfy the three equations. -/
theorem filter_algebra_witness :
    CLIFilter.AND fTrue fFalse cliBase = Except.ok (true && false) ∧
    CLIFilter.OR fTrue fFalse cliBase = Except.ok (true || false) ∧
    CLIFilter.NOT fTrue cliBase = Except.ok (!true) :=
  filter_algebra fTrue fFalse cliBase true false rfl rfl

/-- C8: AND short-circuits — if `f` evaluates to false on `s` then
`f AND g` evaluates to false on `s` for every filter `g`, even one whose
evaluation would raise. -/
theorem and_short_circuit (f g : CLIFilter) (s : CLI)
    (hf : f s = Except.ok false) :
    CLIFilter.AND f g s = Except.ok false := by
  unfold CLIFilter.AND
  rw [hf]

/-- Witness for C8: with a second filter whose own evaluation raises,
the conjunction with the always-false filter still evaluates to false
without raising. -/
theorem and_short_circuit_witness :
    gRaise cliBase = Except.error "evaluated" ∧
    CLIFilter.AND fFalse gRaise cliBase = Except.ok false :=
  ⟨rfl, and_short_circuit fFalse gRaise cliBase rfl⟩

/-- C9: `CanInsert` does not consult the awaiting-digraph flag — on the
concrete snapshot in Vi editing mode with `waiting_for_digraph` set, no
pending operator and raw insert input mode, `CanInsert` is true while
`InViMode(insert)` is false. -/
theorem canInsert_ignores_digraph :
    cliDigraph.editing_mode = EditingMode.vi ∧
    cliDigraph.vi_state.waiting_for_digraph = true ∧
    cliDigraph.vi_state.operator_func = false ∧
    cliDigraph.vi_state.input_mode = InputMode.insert ∧
    CanInsert.eval cliDigraph = true ∧
    InViMode.eval InputMode.insert cliDigraph = false := by
  refine ⟨rfl, rfl, rfl, rfl, rfl, rfl⟩

/-- C10: the `InViMode` family is mutually exclusive — if
`InViMode(m1)` evaluates to true on a snapshot then `InViMode(m2)`
evaluates to false there for every `m2` distinct from `m1`. -/
theorem inViMode_mutually_exclusive (m1 m2 : InputMode) (cli : CLI)
    (hne : m1 ≠ m2) (h1 : InViMode.eval m1 cli = true) :
    InViMode.eval m2 cli = false := by
  unfold InViMode.eval at h1 ⊢
  split at h1
  · exact absurd h1 (by simp)
  · next hpend =>
    rw [if_neg hpend]
    simp only [decide_eq_true_eq] at h1
    simp only [decide_eq_false_iff_not]
    exact fun h => hne (h1.symm.trans h)

/-- Witness for C10: on the Vi raw-insert snapshot `InViMode(insert)`
is true, and applying the theorem gives `InViMode(navigation)` false. -/
theorem inViMode_mutually_exclusive_witness :
    InViMode.eval InputMode.navigation cliViIns = false :=
  inViMode_mutually_exclusive InputMode.insert InputMode.navigation
    cliViIns (by decide) rfl
